import Mathlib

/-!
Shallow embedding of `src/contracts/MoneyPot.sol` (contract `MoneyPot`).

Modelling conventions:
* Addresses, timestamps and `uint256` amounts are `Nat`. Solidity 0.8 uses
  checked arithmetic (overflow reverts), and the values manipulated here are
  far below `2^256` in any state the claims quantify over, so `Nat`
  arithmetic agrees with `uint256` arithmetic on every executed path.
* `mapping(uint256 => T)` is a total function `Nat → T` whose unwritten
  slots hold the zero-valued record, as in the EVM.
* A reverting call is `Except.error e`: it rolls the whole transaction
  back, so an error result carries no post-state.
* The ERC20 `underlying` token is modelled as a balance map; a transfer
  fails iff the source balance is insufficient (allowance bookkeeping is
  outside the claims).  `contractAddress` is the escrow (`address(this)`).
* The optional Pyth/ETH payment rail is unconfigured (`pythConfigured` is
  `false` until `setPythConfig` runs, which no claim involves), so a call
  with `msg.value > 0` reverts with `PythNotConfigured`; every claim uses
  `msg.value = 0`, the token-payment path.
-/

namespace MoneyPot

/-- Constant `DIFFICULTY_MOD = 9`. -/
def DIFFICULTY_MOD : Nat := 9

/-- Constant `HUNTER_SHARE_PERCENT = 60`. -/
def HUNTER_SHARE_PERCENT : Nat := 60

/-- Constant `CREATOR_ENTRY_FEE_SHARE_PERCENT = 50`. -/
def CREATOR_ENTRY_FEE_SHARE_PERCENT : Nat := 50

/-- Constant `MIN_FEE = 100 gwei` = 100 * 10^9 wei. -/
def MIN_FEE : Nat := 100 * 10 ^ 9

/-- The escrow identity, `address(this)` in the contract. -/
def contractAddress : Nat := 1

/-- struct `MoneyPotData`. -/
structure MoneyPotData where
  id : Nat
  creator : Nat
  totalAmount : Nat
  fee : Nat
  createdAt : Nat
  expiresAt : Nat
  isActive : Bool
  attemptsCount : Nat
  oneFaAddress : Nat
  deriving Repr, DecidableEq

/-- struct `Attempt`. -/
structure Attempt where
  id : Nat
  potId : Nat
  hunter : Nat
  expiresAt : Nat
  difficulty : Nat
  isCompleted : Bool
  deriving Repr, DecidableEq

/-- The zero-valued `MoneyPotData`, held by every unwritten mapping slot. -/
def defaultPot : MoneyPotData :=
  { id := 0, creator := 0, totalAmount := 0, fee := 0, createdAt := 0,
    expiresAt := 0, isActive := false, attemptsCount := 0, oneFaAddress := 0 }

/-- The zero-valued `Attempt`, held by every unwritten mapping slot. -/
def defaultAttempt : Attempt :=
  { id := 0, potId := 0, hunter := 0, expiresAt := 0, difficulty := 0,
    isCompleted := false }

/-- Contract storage together with the underlying token's balance map. -/
structure State where
  verifier : Nat
  nextPotId : Nat
  nextAttemptId : Nat
  pots : Nat → MoneyPotData
  attempts : Nat → Attempt
  potIds : List Nat
  balances : Nat → Nat

/-- The contract's revert reasons (custom errors). -/
inductive Err where
  | InvalidFee (minFee fee : Nat)
  | PotNotActive
  | ExpiredPot
  | NotExpired
  | AttemptExpired
  | AttemptCompleted
  | Unauthorized
  | PythNotConfigured
  | TransferFailed
  deriving Repr, DecidableEq

/-- Token move `underlying.safeTransferFrom(src, dst, amt)` / `safeTransfer`: moves
`amt` from `src` to `dst`, failing iff `src`'s balance is insufficient. -/
def transferBal (bal : Nat → Nat) (src dst amt : Nat) : Option (Nat → Nat) :=
  if bal src < amt then none
  else
    let b1 : Nat → Nat := fun a => if a = src then bal src - amt else bal a
    some (fun a => if a = dst then b1 dst + amt else b1 a)

/-- Function `createPot(amount, durationSeconds, fee, oneFaAddress)`; `sender` is
`msg.sender` and `now` is `block.timestamp`.  Returns the new pot id and
the post-state. -/
def createPot (s : State) (sender now amount durationSeconds fee
    oneFaAddress : Nat) : Except Err (Nat × State) :=
  if fee > amount ∨ fee < MIN_FEE then .error (.InvalidFee MIN_FEE fee)
  else
    let id := s.nextPotId
    let pot : MoneyPotData :=
      { id := id, creator := sender, totalAmount := amount, fee := fee,
        createdAt := now, expiresAt := now + durationSeconds,
        isActive := true, attemptsCount := 0, oneFaAddress := oneFaAddress }
    match transferBal s.balances sender contractAddress amount with
    | none => .error .TransferFailed
    | some bal =>
      .ok (id,
        { s with nextPotId := id + 1,
                 pots := fun p => if p = id then pot else s.pots p,
                 potIds := s.potIds ++ [id],
                 balances := bal })

/-- Entry-fee share sent to the pot creator:
`(entryFee * CREATOR_ENTRY_FEE_SHARE_PERCENT) / 100`. -/
def creatorShareOf (entryFee : Nat) : Nat :=
  entryFee * CREATOR_ENTRY_FEE_SHARE_PERCENT / 100

/-- Entry-fee share kept by the platform escrow: `entryFee - creatorShare`. -/
def platformShareOf (entryFee : Nat) : Nat :=
  entryFee - creatorShareOf entryFee

/-- Function `attemptPot(potId)`; `sender` is `msg.sender`, `now` is
`block.timestamp`, `msgValue` is `msg.value`.  Returns the new attempt id
and the post-state. -/
def attemptPot (s : State) (sender now msgValue potId : Nat) :
    Except Err (Nat × State) :=
  let pot := s.pots potId
  if pot.isActive = false then .error .PotNotActive
  else if pot.expiresAt ≤ now then .error .ExpiredPot
  else
    let entryFee := pot.fee
    let creatorShare := creatorShareOf entryFee
    let platformShare := platformShareOf entryFee
    if msgValue > 0 then .error .PythNotConfigured
    else
      match transferBal s.balances sender pot.creator creatorShare with
      | none => .error .TransferFailed
      | some b1 =>
        match transferBal b1 sender contractAddress platformShare with
        | none => .error .TransferFailed
        | some b2 =>
          let difficulty := pot.attemptsCount % DIFFICULTY_MOD + 3
          let pot2 := { pot with attemptsCount := pot.attemptsCount + 1 }
          let attemptId := s.nextAttemptId
          let att : Attempt :=
            { id := attemptId, potId := potId, hunter := sender,
              expiresAt := now + 300, difficulty := difficulty,
              isCompleted := false }
          .ok (attemptId,
            { s with
                pots := fun p => if p = potId then pot2 else s.pots p,
                nextAttemptId := attemptId + 1,
                attempts := fun a => if a = attemptId then att
                  else s.attempts a,
                balances := b2 })

/-- Hunter payout on a solved pot:
`(pot.totalAmount * HUNTER_SHARE_PERCENT) / 100`. -/
def hunterShareOf (totalAmount : Nat) : Nat :=
  totalAmount * HUNTER_SHARE_PERCENT / 100

/-- Function `attemptCompleted(attemptId, status)`; `sender` is `msg.sender`, `now`
is `block.timestamp`. -/
def attemptCompleted (s : State) (sender now attemptId : Nat)
    (status : Bool) : Except Err State :=
  if sender ≠ s.verifier then .error .Unauthorized
  else
    let attempt := s.attempts attemptId
    let pot := s.pots attempt.potId
    if pot.isActive = false then .error .PotNotActive
    else if pot.expiresAt ≤ now then .error .ExpiredPot
    else if attempt.expiresAt ≤ now then .error .AttemptExpired
    else if attempt.isCompleted then .error .AttemptCompleted
    else
      let attempt2 := { attempt with isCompleted := true }
      if status then
        let pot2 := { pot with isActive := false }
        let hunterShare := hunterShareOf pot.totalAmount
        match transferBal s.balances contractAddress attempt.hunter
            hunterShare with
        | none => .error .TransferFailed
        | some bal =>
          .ok { s with
                  attempts := fun a => if a = attemptId then attempt2
                    else s.attempts a,
                  pots := fun p => if p = attempt.potId then pot2
                    else s.pots p,
                  balances := bal }
      else
        .ok { s with
                attempts := fun a => if a = attemptId then attempt2
                  else s.attempts a }

/-- Function `expirePot(potId)`; `sender` is `msg.sender` (never read — the call is
open to any caller), `now` is `block.timestamp`. -/
def expirePot (s : State) (_sender now potId : Nat) : Except Err State :=
  let pot := s.pots potId
  if pot.isActive = false then .error .PotNotActive
  else if now < pot.expiresAt then .error .NotExpired
  else
    match transferBal s.balances contractAddress pot.creator
        pot.totalAmount with
    | none => .error .TransferFailed
    | some bal =>
      .ok { s with
              pots := fun p => if p = potId then { pot with isActive := false }
                else s.pots p,
              balances := bal }

/-- One external transaction against the contract. -/
inductive Op where
  | create (sender now amount durationSeconds fee oneFaAddress : Nat)
  | attempt (sender now msgValue potId : Nat)
  | complete (sender now attemptId : Nat) (status : Bool)
  | expire (sender now potId : Nat)

/-- Transaction semantics: a revert leaves the state unchanged. -/
def applyOp (s : State) (op : Op) : State :=
  match op with
  | .create sender now amount durationSeconds fee oneFaAddress =>
    match createPot s sender now amount durationSeconds fee oneFaAddress with
    | .ok (_, s2) => s2
    | .error _ => s
  | .attempt sender now msgValue potId =>
    match attemptPot s sender now msgValue potId with
    | .ok (_, s2) => s2
    | .error _ => s
  | .complete sender now attemptId status =>
    match attemptCompleted s sender now attemptId status with
    | .ok s2 => s2
    | .error _ => s
  | .expire sender now potId =>
    match expirePot s sender now potId with
    | .ok s2 => s2
    | .error _ => s

/-- The state right after `initialize(token, v)`: fresh ledger, verifier
set, arbitrary token balance sheet `bal`. -/
def initialState (v : Nat) (bal : Nat → Nat) : State :=
  { verifier := v, nextPotId := 0, nextAttemptId := 0,
    pots := fun _ => defaultPot, attempts := fun _ => defaultAttempt,
    potIds := [], balances := bal }

/-- A successful transfer requires a sufficient source balance. -/
theorem transferBal_le {bal : Nat → Nat} {src dst amt : Nat} {b : Nat → Nat}
    (h : transferBal bal src dst amt = some b) : amt ≤ bal src := by
  unfold transferBal at h
  split at h
  · exact absurd h (by simp)
  · omega

/-- A successful transfer credits the destination (when distinct from the
source). -/
theorem transferBal_dst {bal : Nat → Nat} {src dst amt : Nat} {b : Nat → Nat}
    (h : transferBal bal src dst amt = some b) (hne : dst ≠ src) :
    b dst = bal dst + amt := by
  unfold transferBal at h
  split at h
  · exact absurd h (by simp)
  · cases h
    simp [hne]

/-- A successful transfer debits the source (when distinct from the
destination). -/
theorem transferBal_src {bal : Nat → Nat} {src dst amt : Nat} {b : Nat → Nat}
    (h : transferBal bal src dst amt = some b) (hne : dst ≠ src) :
    b src = bal src - amt := by
  unfold transferBal at h
  split at h
  · exact absurd h (by simp)
  · cases h
    simp [hne, Ne.symm hne]

/-- A transfer leaves every third party's balance unchanged. -/
theorem transferBal_other {bal : Nat → Nat} {src dst amt : Nat}
    {b : Nat → Nat} (h : transferBal bal src dst amt = some b) {a : Nat}
    (h1 : a ≠ src) (h2 : a ≠ dst) : b a = bal a := by
  unfold transferBal at h
  split at h
  · exact absurd h (by simp)
  · cases h
    simp [h1, h2]

/-- A concrete balance sheet: accounts `2` (creator) and `3` (hunter) each
hold `10^15` token units. -/
def balW : Nat → Nat :=
  fun a => if a = 2 then 10 ^ 15 else if a = 3 then 10 ^ 15 else 0

/-- Concrete run, step 0: freshly initialized ledger, verifier `7`. -/
def s0W : State := initialState 7 balW

/-- Concrete run, step 1: creator `2` opens pot `0` at time `0` with
amount `10^12`, duration `1000` and fee `10^11`. -/
def s1W : State := applyOp s0W (.create 2 0 (10 ^ 12) 1000 (10 ^ 11) 99)

/-- Concrete run, step 2: hunter `3` attempts pot `0` at time `5`,
creating attempt `0`. -/
def s2W : State := applyOp s1W (.attempt 3 5 0 0)

/-- Concrete run, step 3: the verifier reports attempt `0` as succeeded at
time `6`, solving pot `0`. -/
def s3W : State := applyOp s2W (.complete 7 6 0 true)

/-- Concrete run, alternative step 3: the verifier reports attempt `0` as
failed at time `6`; pot `0` stays open. -/
def s4W : State := applyOp s2W (.complete 7 6 0 false)

/-- C3: for every successful (token-path) `attemptPot` on a pot whose
creator, hunter and escrow are distinct parties, the creator receives
exactly `creatorShareOf fee = fee * 50 / 100` and the escrow receives
exactly `platformShareOf fee = fee - creatorShareOf fee`; the two shares
sum to the fee for every integer fee value. -/
theorem C3_fee_split_exact (s : State) (sender now potId aid : Nat)
    (s2 : State) (h : attemptPot s sender now 0 potId = .ok (aid, s2))
    (h1 : sender ≠ (s.pots potId).creator)
    (h2 : sender ≠ contractAddress)
    (h3 : (s.pots potId).creator ≠ contractAddress) :
    s2.balances (s.pots potId).creator
      = s.balances (s.pots potId).creator + creatorShareOf (s.pots potId).fee ∧
    s2.balances contractAddress
      = s.balances contractAddress + platformShareOf (s.pots potId).fee ∧
    creatorShareOf (s.pots potId).fee
      = (s.pots potId).fee * CREATOR_ENTRY_FEE_SHARE_PERCENT / 100 ∧
    (∀ f : Nat, creatorShareOf f + platformShareOf f = f) := by
  simp only [attemptPot] at h
  split at h
  · simp at h
  split at h
  · simp at h
  split at h
  · simp at h
  split at h
  · simp at h
  rename_i b1 heq1
  split at h
  · simp at h
  rename_i b2 heq2
  simp only [Except.ok.injEq, Prod.mk.injEq] at h
  obtain ⟨ha, hs⟩ := h
  subst ha
  subst hs
  refine ⟨?_, ?_, rfl, ?_⟩
  · have e2 : b2 (s.pots potId).creator = b1 (s.pots potId).creator :=
      transferBal_other heq2 (Ne.symm h1) h3
    have e1 : b1 (s.pots potId).creator
        = s.balances (s.pots potId).creator + creatorShareOf (s.pots potId).fee :=
      transferBal_dst heq1 (Ne.symm h1)
    simp only [e2, e1]
  · have e2 : b2 contractAddress
        = b1 contractAddress + platformShareOf (s.pots potId).fee :=
      transferBal_dst heq2 (Ne.symm h2)
    have e1 : b1 contractAddress = s.balances contractAddress :=
      transferBal_other heq1 (Ne.symm h2) (Ne.symm h3)
    simp only [e2, e1]
  · intro f
    unfold platformShareOf creatorShareOf CREATOR_ENTRY_FEE_SHARE_PERCENT
    omega

/-- Witness for C3 on the concrete run: hunter `3` attempts pot `0` of
creator `2`; both shares land as stated and sum to the fee. -/
theorem C3_fee_split_exact_witness :
    s2W.balances (s1W.pots 0).creator
      = s1W.balances (s1W.pots 0).creator + creatorShareOf (s1W.pots 0).fee ∧
    s2W.balances contractAddress
      = s1W.balances contractAddress + platformShareOf (s1W.pots 0).fee ∧
    creatorShareOf (s1W.pots 0).fee
      = (s1W.pots 0).fee * CREATOR_ENTRY_FEE_SHARE_PERCENT / 100 ∧
    (∀ f : Nat, creatorShareOf f + platformShareOf f = f) :=
  C3_fee_split_exact s1W 3 5 0 0 s2W rfl (by decide) (by decide) (by decide)

/-- C4: a successful `attemptPot` stores difficulty
`(attemptsCount % DIFFICULTY_MOD) + 3` computed from the pot's attempt
count before it is incremented, and increments the count by one;
`DIFFICULTY_MOD = 9`, so the difficulty of the `n`-th attempt on a fresh
pot is `n % 9 + 3`, cycling `3..11`. -/
theorem C4_difficulty (s : State) (sender now msgValue potId aid : Nat)
    (s2 : State) (h : attemptPot s sender now msgValue potId = .ok (aid, s2)) :
    (s2.attempts aid).difficulty
      = (s.pots potId).attemptsCount % DIFFICULTY_MOD + 3 ∧
    DIFFICULTY_MOD = 9 ∧
    (s2.pots potId).attemptsCount = (s.pots potId).attemptsCount + 1 := by
  simp only [attemptPot] at h
  split at h
  · simp at h
  split at h
  · simp at h
  split at h
  · simp at h
  split at h
  · simp at h
  split at h
  · simp at h
  simp only [Except.ok.injEq, Prod.mk.injEq] at h
  obtain ⟨h1, h2⟩ := h
  subst h1
  subst h2
  simp [DIFFICULTY_MOD]

/-- Witness for C4 on the concrete run: the first attempt on pot `0` has
difficulty `0 % 9 + 3 = 3` and bumps the count to `1`. -/
theorem C4_difficulty_witness :
    (s2W.attempts 0).difficulty
      = (s1W.pots 0).attemptsCount % DIFFICULTY_MOD + 3 ∧
    DIFFICULTY_MOD = 9 ∧
    (s2W.pots 0).attemptsCount = (s1W.pots 0).attemptsCount + 1 :=
  C4_difficulty s1W 3 5 0 0 0 s2W rfl

/-- C7: `createPot` rejects with `InvalidFee(MIN_FEE, fee)` exactly when
`fee < MIN_FEE` or `fee > amount` (so `fee = amount` is accepted and
`fee = MIN_FEE - 1` is rejected), and on success it allocates the next
pot id (the current `nextPotId`, which then increments) and stores the
pot with `isActive = true`, `attemptsCount = 0` and
`expiresAt = createdAt + durationSeconds`. -/
theorem C7_create_pot (s : State)
    (sender now amount durationSeconds fee oneFaAddress : Nat) :
    ((createPot s sender now amount durationSeconds fee oneFaAddress
        = .error (.InvalidFee MIN_FEE fee)) ↔
      (fee < MIN_FEE ∨ amount < fee)) ∧
    (∀ id s2, createPot s sender now amount durationSeconds fee oneFaAddress
        = .ok (id, s2) →
      id = s.nextPotId ∧ s2.nextPotId = s.nextPotId + 1 ∧
      s2.pots id = { id := id, creator := sender, totalAmount := amount,
                     fee := fee, createdAt := now,
                     expiresAt := now + durationSeconds, isActive := true,
                     attemptsCount := 0,
                     oneFaAddress := oneFaAddress }) := by
  constructor
  · by_cases hc : fee > amount ∨ fee < MIN_FEE
    · simp only [createPot]
      rw [if_pos hc]
      constructor
      · intro _
        rcases hc with hc | hc
        · exact Or.inr hc
        · exact Or.inl hc
      · intro _
        rfl
    · push_neg at hc
      simp only [createPot]
      rw [if_neg (by omega)]
      cases htb : transferBal s.balances sender contractAddress amount with
      | none =>
        simp only [htb]
        constructor
        · intro hh
          exact absurd hh (by simp)
        · intro hh
          omega
      | some bal =>
        simp only [htb]
        constructor
        · intro hh
          exact absurd hh (by simp)
        · intro hh
          omega
  · intro id s2 h
    simp only [createPot] at h
    split at h
    · simp at h
    split at h
    · simp at h
    simp only [Except.ok.injEq, Prod.mk.injEq] at h
    obtain ⟨h1, h2⟩ := h
    subst h1
    subst h2
    exact ⟨rfl, rfl, by simp⟩

/-- Witness for C7 on the concrete run: the first creation allocates id
`0` with the stated fields; a fee one unit below `MIN_FEE` is rejected
with `InvalidFee`; a fee exactly equal to the amount is not rejected with
`InvalidFee`. -/
theorem C7_create_pot_witness :
    (0 = s0W.nextPotId ∧ s1W.nextPotId = s0W.nextPotId + 1 ∧
      s1W.pots 0 = { id := 0, creator := 2, totalAmount := 10 ^ 12,
                     fee := 10 ^ 11, createdAt := 0, expiresAt := 0 + 1000,
                     isActive := true, attemptsCount := 0,
                     oneFaAddress := 99 }) ∧
    createPot s0W 2 0 (10 ^ 12) 1000 (10 ^ 11 - 1) 99
      = .error (.InvalidFee MIN_FEE (10 ^ 11 - 1)) ∧
    ¬ createPot s0W 2 0 MIN_FEE 1000 MIN_FEE 99
        = .error (.InvalidFee MIN_FEE MIN_FEE) :=
  ⟨(C7_create_pot s0W 2 0 (10 ^ 12) 1000 (10 ^ 11) 99).2 0 s1W rfl,
   (C7_create_pot s0W 2 0 (10 ^ 12) 1000 (10 ^ 11 - 1) 99).1.mpr
     (Or.inl (by norm_num [MIN_FEE])),
   fun h => absurd ((C7_create_pot s0W 2 0 MIN_FEE 1000 MIN_FEE 99).1.mp h)
     (by omega)⟩

/-- C2: `attemptCompleted` rejects non-verifier callers with
`Unauthorized`; for the verifier the remaining checks run in source
order — pot active (`PotNotActive`), pot unexpired (`ExpiredPot`),
attempt unexpired (`AttemptExpired`), attempt not yet completed
(`AttemptCompleted`) — and the first violated check's error is raised. -/
theorem C2_check_order (s : State) (sender now attemptId : Nat)
    (status : Bool) :
    (sender ≠ s.verifier →
      attemptCompleted s sender now attemptId status
        = .error .Unauthorized) ∧
    (sender = s.verifier →
      (s.pots (s.attempts attemptId).potId).isActive = false →
      attemptCompleted s sender now attemptId status
        = .error .PotNotActive) ∧
    (sender = s.verifier →
      (s.pots (s.attempts attemptId).potId).isActive = true →
      (s.pots (s.attempts attemptId).potId).expiresAt ≤ now →
      attemptCompleted s sender now attemptId status
        = .error .ExpiredPot) ∧
    (sender = s.verifier →
      (s.pots (s.attempts attemptId).potId).isActive = true →
      now < (s.pots (s.attempts attemptId).potId).expiresAt →
      (s.attempts attemptId).expiresAt ≤ now →
      attemptCompleted s sender now attemptId status
        = .error .AttemptExpired) ∧
    (sender = s.verifier →
      (s.pots (s.attempts attemptId).potId).isActive = true →
      now < (s.pots (s.attempts attemptId).potId).expiresAt →
      now < (s.attempts attemptId).expiresAt →
      (s.attempts attemptId).isCompleted = true →
      attemptCompleted s sender now attemptId status
        = .error .AttemptCompleted) := by
  refine ⟨?_, ?_, ?_, ?_, ?_⟩
  · intro h
    simp only [attemptCompleted]
    rw [if_pos h]
  · intro h hact
    simp only [attemptCompleted]
    rw [if_neg (fun hn => hn h), if_pos hact]
  · intro h hact hexp
    simp only [attemptCompleted]
    rw [if_neg (fun hn => hn h), if_neg (by simp [hact]), if_pos hexp]
  · intro h hact hexp hatt
    simp only [attemptCompleted]
    rw [if_neg (fun hn => hn h), if_neg (by simp [hact]),
        if_neg (by omega), if_pos hatt]
  · intro h hact hexp hatt hcomp
    simp only [attemptCompleted]
    rw [if_neg (fun hn => hn h), if_neg (by simp [hact]),
        if_neg (by omega), if_neg (by omega), if_pos hcomp]

/-- Witness for C2: each of the five errors raised at a concrete state of
the concrete run — a stranger calling, a solved pot, a timed-out pot, a
timed-out attempt, and an already-completed attempt. -/
theorem C2_check_order_witness :
    attemptCompleted s2W 8 6 0 true = .error .Unauthorized ∧
    attemptCompleted s3W 7 8 0 false = .error .PotNotActive ∧
    attemptCompleted s2W 7 1000 0 true = .error .ExpiredPot ∧
    attemptCompleted s2W 7 305 0 true = .error .AttemptExpired ∧
    attemptCompleted s4W 7 8 0 true = .error .AttemptCompleted :=
  ⟨(C2_check_order s2W 8 6 0 true).1 (by decide),
   (C2_check_order s3W 7 8 0 false).2.1 (by decide) (by decide),
   (C2_check_order s2W 7 1000 0 true).2.2.1 (by decide) (by decide)
     (by decide),
   (C2_check_order s2W 7 305 0 true).2.2.2.1 (by decide) (by decide)
     (by decide) (by decide),
   (C2_check_order s4W 7 8 0 true).2.2.2.2 (by decide) (by decide)
     (by decide) (by decide) (by decide)⟩

/-- C5: a successful `attemptCompleted(_, true)` deactivates the pot and
transfers exactly `hunterShareOf totalAmount = totalAmount * 60 / 100`
from escrow custody to the attempt's hunter, leaving the rest in custody;
for `totalAmount = 1000` the share is `600`, leaving `400`. -/
theorem C5_success_payout (s : State) (sender now aid : Nat) (s2 : State)
    (h : attemptCompleted s sender now aid true = .ok s2) :
    (s2.pots (s.attempts aid).potId).isActive = false ∧
    hunterShareOf (s.pots (s.attempts aid).potId).totalAmount
      = (s.pots (s.attempts aid).potId).totalAmount
          * HUNTER_SHARE_PERCENT / 100 ∧
    ((s.attempts aid).hunter ≠ contractAddress →
      s2.balances (s.attempts aid).hunter
        = s.balances (s.attempts aid).hunter
            + hunterShareOf (s.pots (s.attempts aid).potId).totalAmount ∧
      s2.balances contractAddress
        = s.balances contractAddress
            - hunterShareOf (s.pots (s.attempts aid).potId).totalAmount) ∧
    hunterShareOf 1000 = 600 ∧ 1000 - hunterShareOf 1000 = 400 := by
  simp only [attemptCompleted] at h
  split at h
  · simp at h
  split at h
  · simp at h
  split at h
  · simp at h
  split at h
  · simp at h
  split at h
  · simp at h
  rw [if_pos trivial] at h
  split at h
  · simp at h
  rename_i bal heq
  simp only [Except.ok.injEq] at h
  subst h
  refine ⟨by simp, rfl, ?_, by decide, by decide⟩
  intro hne
  exact ⟨transferBal_dst heq hne, transferBal_src heq hne⟩

/-- Witness for C5 on the concrete run: solving pot `0` (stake `10^12`)
pays hunter `3` exactly `hunterShareOf 10^12` and debits escrow. -/
theorem C5_success_payout_witness :
    (s3W.pots (s2W.attempts 0).potId).isActive = false ∧
    hunterShareOf (s2W.pots (s2W.attempts 0).potId).totalAmount
      = (s2W.pots (s2W.attempts 0).potId).totalAmount
          * HUNTER_SHARE_PERCENT / 100 ∧
    ((s2W.attempts 0).hunter ≠ contractAddress →
      s3W.balances (s2W.attempts 0).hunter
        = s2W.balances (s2W.attempts 0).hunter
            + hunterShareOf (s2W.pots (s2W.attempts 0).potId).totalAmount ∧
      s3W.balances contractAddress
        = s2W.balances contractAddress
            - hunterShareOf (s2W.pots (s2W.attempts 0).potId).totalAmount) ∧
    hunterShareOf 1000 = 600 ∧ 1000 - hunterShareOf 1000 = 400 :=
  C5_success_payout s2W 7 6 0 s3W rfl

/-- C6: `expirePot` ignores its caller entirely; it rejects an inactive
pot with `PotNotActive` and an unexpired pot with `NotExpired`, and on
success it deactivates the pot and returns the full `totalAmount` from
escrow to the creator. -/
theorem C6_expire_pot (s : State) (sender sender2 now potId : Nat) :
    expirePot s sender now potId = expirePot s sender2 now potId ∧
    ((s.pots potId).isActive = false →
      expirePot s sender now potId = .error .PotNotActive) ∧
    ((s.pots potId).isActive = true → now < (s.pots potId).expiresAt →
      expirePot s sender now potId = .error .NotExpired) ∧
    (∀ s2, expirePot s sender now potId = .ok s2 →
      (s.pots potId).isActive = true ∧ (s.pots potId).expiresAt ≤ now ∧
      (s2.pots potId).isActive = false ∧
      ((s.pots potId).creator ≠ contractAddress →
        s2.balances (s.pots potId).creator
          = s.balances (s.pots potId).creator + (s.pots potId).totalAmount ∧
        s2.balances contractAddress
          = s.balances contractAddress - (s.pots potId).totalAmount)) := by
  refine ⟨rfl, ?_, ?_, ?_⟩
  · intro h
    simp only [expirePot]
    rw [if_pos h]
  · intro h1 h2
    simp only [expirePot]
    rw [if_neg (by simp [h1]), if_pos h2]
  · intro s2 h
    simp only [expirePot] at h
    split at h
    · simp at h
    rename_i hact
    split at h
    · simp at h
    rename_i hexp
    split at h
    · simp at h
    rename_i bal heq
    simp only [Except.ok.injEq] at h
    subst h
    refine ⟨by simpa using hact, Nat.le_of_not_lt hexp, by simp, ?_⟩
    intro hne
    exact ⟨transferBal_dst heq hne, transferBal_src heq hne⟩

/-- Witness for C6: expiring pot `0` at its expiry time `1000` succeeds
with the stated effects; the solved pot of `s3W` is rejected with
`PotNotActive`; an early call at time `500` is rejected with
`NotExpired`; and the result never depends on the caller. -/
theorem C6_expire_pot_witness :
    expirePot s1W 9 1000 0 = expirePot s1W 42 1000 0 ∧
    expirePot s3W 9 50 0 = .error .PotNotActive ∧
    expirePot s1W 9 500 0 = .error .NotExpired ∧
    ((s1W.pots 0).isActive = true ∧ (s1W.pots 0).expiresAt ≤ 1000 ∧
      ((applyOp s1W (.expire 9 1000 0)).pots 0).isActive = false ∧
      ((s1W.pots 0).creator ≠ contractAddress →
        (applyOp s1W (.expire 9 1000 0)).balances (s1W.pots 0).creator
          = s1W.balances (s1W.pots 0).creator + (s1W.pots 0).totalAmount ∧
        (applyOp s1W (.expire 9 1000 0)).balances contractAddress
          = s1W.balances contractAddress - (s1W.pots 0).totalAmount)) :=
  ⟨(C6_expire_pot s1W 9 42 1000 0).1,
   (C6_expire_pot s3W 9 9 50 0).2.1 (by decide),
   (C6_expire_pot s1W 9 9 500 0).2.2.1 (by decide) (by decide),
   (C6_expire_pot s1W 9 9 1000 0).2.2.2 (applyOp s1W (.expire 9 1000 0))
     rfl⟩

/-- C9: a successful `attemptCompleted(_, false)` marks exactly that
attempt completed and changes nothing else: other attempts, every pot,
all balances and all counters are untouched. -/
theorem C9_failed_completion_frame (s : State) (sender now aid : Nat)
    (s2 : State) (h : attemptCompleted s sender now aid false = .ok s2) :
    s2.attempts aid = { s.attempts aid with isCompleted := true } ∧
    (∀ a, a ≠ aid → s2.attempts a = s.attempts a) ∧
    s2.pots = s.pots ∧ s2.balances = s.balances ∧
    s2.verifier = s.verifier ∧ s2.nextPotId = s.nextPotId ∧
    s2.nextAttemptId = s.nextAttemptId ∧ s2.potIds = s.potIds := by
  simp only [attemptCompleted] at h
  split at h
  · simp at h
  split at h
  · simp at h
  split at h
  · simp at h
  split at h
  · simp at h
  split at h
  · simp at h
  rw [if_neg Bool.false_ne_true] at h
  simp only [Except.ok.injEq] at h
  subst h
  refine ⟨by simp, ?_, rfl, rfl, rfl, rfl, rfl, rfl⟩
  intro a ha
  simp [ha]

/-- Witness for C9 on the concrete run: the verifier reports attempt `0`
failed; only that attempt's completion flag changes. -/
theorem C9_failed_completion_frame_witness :
    s4W.attempts 0 = { s2W.attempts 0 with isCompleted := true } ∧
    (∀ a, a ≠ 0 → s4W.attempts a = s2W.attempts a) ∧
    s4W.pots = s2W.pots ∧ s4W.balances = s2W.balances ∧
    s4W.verifier = s2W.verifier ∧ s4W.nextPotId = s2W.nextPotId ∧
    s4W.nextAttemptId = s2W.nextAttemptId ∧ s4W.potIds = s2W.potIds :=
  C9_failed_completion_frame s2W 7 6 0 s4W rfl

/-- C1 counterexample: on the concrete run the verifier's
`attemptCompleted(0, true)` succeeds (producing `s3W`), and the second
`attemptCompleted` on the same id fails with `PotNotActive` — not with
`AttemptCompleted` as the claim states — because the success run
deactivated the pot and the pot-active check runs first. -/
theorem C1_second_completion_counterexample :
    attemptCompleted s2W 7 6 0 true = .ok s3W ∧
    attemptCompleted s3W 7 8 0 true = .error .PotNotActive ∧
    Err.PotNotActive ≠ Err.AttemptCompleted :=
  ⟨rfl, rfl, by decide⟩

/-- C1 (amended): once `attemptCompleted(id, true)` succeeds, every later
`attemptCompleted` on the same id by the verifier fails — with
`PotNotActive`, since the success deactivated the pot and that check
precedes the completed-attempt check; and every `attemptPot` on an
inactive (solved or expired) pot fails with `PotNotActive`. -/
theorem C1_terminal_after_success (s : State) (sender now aid : Nat)
    (s2 : State) (h : attemptCompleted s sender now aid true = .ok s2) :
    (∀ now2 status, attemptCompleted s2 s2.verifier now2 aid status
        = .error .PotNotActive) ∧
    (∀ t : State, ∀ sender2 now2 msgValue potId : Nat,
      (t.pots potId).isActive = false →
      attemptPot t sender2 now2 msgValue potId = .error .PotNotActive) := by
  constructor
  · intro now2 status
    simp only [attemptCompleted] at h
    split at h
    · simp at h
    split at h
    · simp at h
    split at h
    · simp at h
    split at h
    · simp at h
    split at h
    · simp at h
    rw [if_pos trivial] at h
    split at h
    · simp at h
    rename_i bal heq
    simp only [Except.ok.injEq] at h
    subst h
    simp [attemptCompleted]
  · intro t sender2 now2 msgValue potId hin
    simp only [attemptPot]
    rw [if_pos hin]

/-- Witness for the amended C1: after solving pot `0`, a repeat call on
attempt `0` by the verifier raises `PotNotActive`, and a fresh
`attemptPot` on the solved pot raises `PotNotActive` too. -/
theorem C1_terminal_after_success_witness :
    attemptCompleted s3W s3W.verifier 8 0 true = .error .PotNotActive ∧
    attemptPot s3W 3 8 0 0 = .error .PotNotActive :=
  ⟨(C1_terminal_after_success s2W 7 6 0 s3W rfl).1 8 true,
   (C1_terminal_after_success s2W 7 6 0 s3W rfl).2 s3W 3 8 0 0 (by decide)⟩

/-- One transaction never reactivates an already-allocated inactive pot,
and never decreases the pot-id counter. -/
theorem applyOp_preserves_inactive (s : State) (op : Op) (id : Nat)
    (hid : id < s.nextPotId) (hin : (s.pots id).isActive = false) :
    ((applyOp s op).pots id).isActive = false ∧
    s.nextPotId ≤ (applyOp s op).nextPotId := by
  cases op with
  | create sender now amount durationSeconds fee oneFaAddress =>
    cases hc : createPot s sender now amount durationSeconds fee
        oneFaAddress with
    | error e =>
      simp only [applyOp, hc]
      exact ⟨hin, Nat.le_refl _⟩
    | ok r =>
      obtain ⟨rid, s2⟩ := r
      simp only [applyOp, hc]
      simp only [createPot] at hc
      split at hc
      · simp at hc
      split at hc
      · simp at hc
      simp only [Except.ok.injEq, Prod.mk.injEq] at hc
      obtain ⟨h1, h2⟩ := hc
      subst h2
      constructor
      · have hne : id ≠ s.nextPotId := by omega
        simp [hne, hin]
      · simp
  | attempt sender now msgValue potId =>
    cases hc : attemptPot s sender now msgValue potId with
    | error e =>
      simp only [applyOp, hc]
      exact ⟨hin, Nat.le_refl _⟩
    | ok r =>
      obtain ⟨rid, s2⟩ := r
      simp only [applyOp, hc]
      simp only [attemptPot] at hc
      split at hc
      · simp at hc
      rename_i hact
      split at hc
      · simp at hc
      split at hc
      · simp at hc
      split at hc
      · simp at hc
      split at hc
      · simp at hc
      simp only [Except.ok.injEq, Prod.mk.injEq] at hc
      obtain ⟨h1, h2⟩ := hc
      subst h2
      constructor
      · by_cases hip : id = potId
        · subst hip
          exact absurd hin hact
        · simp [hip, hin]
      · simp
  | complete sender now aid status =>
    cases hc : attemptCompleted s sender now aid status with
    | error e =>
      simp only [applyOp, hc]
      exact ⟨hin, Nat.le_refl _⟩
    | ok s2 =>
      simp only [applyOp, hc]
      simp only [attemptCompleted] at hc
      split at hc
      · simp at hc
      split at hc
      · simp at hc
      split at hc
      · simp at hc
      split at hc
      · simp at hc
      split at hc
      · simp at hc
      split at hc
      · split at hc
        · simp at hc
        simp only [Except.ok.injEq] at hc
        subst hc
        constructor
        · by_cases hip : id = (s.attempts aid).potId
          · subst hip
            simp
          · simp [hip, hin]
        · exact Nat.le_refl _
      · simp only [Except.ok.injEq] at hc
        subst hc
        exact ⟨hin, Nat.le_refl _⟩
  | expire sender now potId =>
    cases hc : expirePot s sender now potId with
    | error e =>
      simp only [applyOp, hc]
      exact ⟨hin, Nat.le_refl _⟩
    | ok s2 =>
      simp only [applyOp, hc]
      simp only [expirePot] at hc
      split at hc
      · simp at hc
      split at hc
      · simp at hc
      split at hc
      · simp at hc
      simp only [Except.ok.injEq] at hc
      subst hc
      constructor
      · by_cases hip : id = potId
        · subst hip
          simp
        · simp [hip, hin]
      · exact Nat.le_refl _

/-- Inactivity of an allocated pot survives any transaction sequence. -/
theorem foldl_preserves_inactive (ops : List Op) (s : State) (id : Nat)
    (hid : id < s.nextPotId) (hin : (s.pots id).isActive = false) :
    ((ops.foldl applyOp s).pots id).isActive = false := by
  induction ops generalizing s with
  | nil => exact hin
  | cons op rest ih =>
    simp only [List.foldl_cons]
    obtain ⟨h1, h2⟩ := applyOp_preserves_inactive s op id hid hin
    exact ih (applyOp s op) (Nat.lt_of_lt_of_le hid h2) h1

/-- C8: once an allocated pot is inactive, no sequence of `createPot`,
`attemptPot`, `attemptCompleted` or `expirePot` transactions ever makes
it active again; moreover an inactive pot can undergo neither terminal
transition — `expirePot` on it fails with `PotNotActive`, and
`attemptCompleted` on any of its attempts fails with `Unauthorized` or
`PotNotActive`. -/
theorem C8_inactive_terminal (s : State) (ops : List Op) (id : Nat)
    (hid : id < s.nextPotId) (hin : (s.pots id).isActive = false) :
    ((ops.foldl applyOp s).pots id).isActive = false ∧
    (∀ sender now, expirePot s sender now id = .error .PotNotActive) ∧
    (∀ sender now aid status, (s.attempts aid).potId = id →
      attemptCompleted s sender now aid status = .error .Unauthorized ∨
      attemptCompleted s sender now aid status = .error .PotNotActive) := by
  refine ⟨foldl_preserves_inactive ops s id hid hin, ?_, ?_⟩
  · intro sender now
    simp only [expirePot]
    rw [if_pos hin]
  · intro sender now aid status hpid
    by_cases hs : sender = s.verifier
    · right
      simp only [attemptCompleted]
      rw [if_neg (fun hn => hn hs), if_pos (hpid ▸ hin)]
    · left
      simp only [attemptCompleted]
      rw [if_pos hs]

/-- Witness for C8: pot `0` is inactive in `s3W` (it was solved); it
stays inactive after a further attempt and an expiry call, `expirePot`
on it fails with `PotNotActive`, and a repeated resolution of its
attempt `0` fails with `Unauthorized` or `PotNotActive`. -/
theorem C8_inactive_terminal_witness :
    (([Op.attempt 3 10 0 0,
       Op.expire 9 2000 0].foldl applyOp s3W).pots 0).isActive = false ∧
    (∀ sender now, expirePot s3W sender now 0 = .error .PotNotActive) ∧
    (∀ sender now aid status, (s3W.attempts aid).potId = 0 →
      attemptCompleted s3W sender now aid status = .error .Unauthorized ∨
      attemptCompleted s3W sender now aid status = .error .PotNotActive) :=
  C8_inactive_terminal s3W [Op.attempt 3 10 0 0, Op.expire 9 2000 0] 0
    (by decide) (by decide)

/-- A successful `attemptCompleted` implies the attempt's own expiry
check passed: the current time is strictly below the attempt's
`expiresAt`. -/
theorem attemptCompleted_ok_expiry (s : State) (sender now aid : Nat)
    (status : Bool) (s2 : State)
    (h : attemptCompleted s sender now aid status = .ok s2) :
    now < (s.attempts aid).expiresAt := by
  simp only [attemptCompleted] at h
  split at h
  · simp at h
  split at h
  · simp at h
  split at h
  · simp at h
  split at h
  · simp at h
  rename_i hlt
  exact Nat.lt_of_not_le hlt

/-- A successful `attemptCompleted` leaves the attempt-id counter and all
other attempt slots unchanged. -/
theorem attemptCompleted_ok_attempts (s : State) (sender now aid : Nat)
    (status : Bool) (s2 : State)
    (h : attemptCompleted s sender now aid status = .ok s2) :
    s2.nextAttemptId = s.nextAttemptId ∧
    (∀ a, a ≠ aid → s2.attempts a = s.attempts a) := by
  simp only [attemptCompleted] at h
  split at h
  · simp at h
  split at h
  · simp at h
  split at h
  · simp at h
  split at h
  · simp at h
  split at h
  · simp at h
  split at h
  · split at h
    · simp at h
    simp only [Except.ok.injEq] at h
    subst h
    exact ⟨rfl, fun a ha => by simp [ha]⟩
  · simp only [Except.ok.injEq] at h
    subst h
    exact ⟨rfl, fun a ha => by simp [ha]⟩

/-- Invariant: every attempt slot at or above `nextAttemptId` still holds
the zero-valued record. -/
def unallocatedDefault (s : State) : Prop :=
  ∀ a, s.nextAttemptId ≤ a → s.attempts a = defaultAttempt

/-- The freshly initialized ledger satisfies the invariant. -/
theorem initialState_unallocatedDefault (v : Nat) (bal : Nat → Nat) :
    unallocatedDefault (initialState v bal) :=
  fun _ _ => rfl

/-- Every transaction preserves the invariant. -/
theorem applyOp_unallocatedDefault (s : State) (op : Op)
    (hinv : unallocatedDefault s) : unallocatedDefault (applyOp s op) := by
  cases op with
  | create sender now amount durationSeconds fee oneFaAddress =>
    cases hc : createPot s sender now amount durationSeconds fee
        oneFaAddress with
    | error e =>
      intro a ha
      simp only [applyOp, hc] at ha ⊢
      exact hinv a ha
    | ok r =>
      obtain ⟨rid, s2⟩ := r
      intro a ha
      simp only [applyOp, hc] at ha ⊢
      simp only [createPot] at hc
      split at hc
      · simp at hc
      split at hc
      · simp at hc
      simp only [Except.ok.injEq, Prod.mk.injEq] at hc
      obtain ⟨h1, h2⟩ := hc
      subst h2
      exact hinv a ha
  | attempt sender now msgValue potId =>
    cases hc : attemptPot s sender now msgValue potId with
    | error e =>
      intro a ha
      simp only [applyOp, hc] at ha ⊢
      exact hinv a ha
    | ok r =>
      obtain ⟨rid, s2⟩ := r
      intro a ha
      simp only [applyOp, hc] at ha ⊢
      simp only [attemptPot] at hc
      split at hc
      · simp at hc
      split at hc
      · simp at hc
      split at hc
      · simp at hc
      split at hc
      · simp at hc
      split at hc
      · simp at hc
      simp only [Except.ok.injEq, Prod.mk.injEq] at hc
      obtain ⟨h1, h2⟩ := hc
      subst h2
      have ha2 : s.nextAttemptId + 1 ≤ a := ha
      have hne : a ≠ s.nextAttemptId := by omega
      show (if a = s.nextAttemptId then _ else s.attempts a) = defaultAttempt
      rw [if_neg hne]
      exact hinv a (by omega)
  | complete sender now aid status =>
    cases hc : attemptCompleted s sender now aid status with
    | error e =>
      intro a ha
      simp only [applyOp, hc] at ha ⊢
      exact hinv a ha
    | ok s2 =>
      have hexp := attemptCompleted_ok_expiry s sender now aid status s2 hc
      have haid : aid < s.nextAttemptId := by
        by_contra hge
        push_neg at hge
        have hdef := hinv aid hge
        rw [hdef] at hexp
        exact absurd hexp (by simp [defaultAttempt])
      obtain ⟨hn, hf⟩ := attemptCompleted_ok_attempts s sender now aid
        status s2 hc
      intro a ha
      simp only [applyOp, hc] at ha ⊢
      rw [hn] at ha
      rw [hf a (by omega)]
      exact hinv a ha
  | expire sender now potId =>
    cases hc : expirePot s sender now potId with
    | error e =>
      intro a ha
      simp only [applyOp, hc] at ha ⊢
      exact hinv a ha
    | ok s2 =>
      intro a ha
      simp only [applyOp, hc] at ha ⊢
      simp only [expirePot] at hc
      split at hc
      · simp at hc
      split at hc
      · simp at hc
      split at hc
      · simp at hc
      simp only [Except.ok.injEq] at hc
      subst hc
      exact hinv a ha

/-- The invariant holds in every state reachable from an initialized
ledger. -/
theorem foldl_unallocatedDefault (ops : List Op) (s : State)
    (hinv : unallocatedDefault s) :
    unallocatedDefault (ops.foldl applyOp s) := by
  induction ops generalizing s with
  | nil => exact hinv
  | cons op rest ih =>
    simp only [List.foldl_cons]
    exact ih (applyOp s op) (applyOp_unallocatedDefault s op hinv)

/-- C10: in any state reachable from a fresh ledger, calling
`attemptCompleted` (as the verifier) on a never-allocated attempt id
always fails — with `PotNotActive` or `ExpiredPot` from pot `0`'s state,
or at the latest with `AttemptExpired` since the zero-valued attempt has
`expiresAt = 0` — and the transaction leaves the state unchanged. -/
theorem C10_unallocated_attempt (v : Nat) (bal : Nat → Nat) (ops : List Op)
    (now aid : Nat) (status : Bool)
    (hge : (ops.foldl applyOp (initialState v bal)).nextAttemptId ≤ aid) :
    (attemptCompleted (ops.foldl applyOp (initialState v bal))
        (ops.foldl applyOp (initialState v bal)).verifier now aid status
        = .error .PotNotActive ∨
     attemptCompleted (ops.foldl applyOp (initialState v bal))
        (ops.foldl applyOp (initialState v bal)).verifier now aid status
        = .error .ExpiredPot ∨
     attemptCompleted (ops.foldl applyOp (initialState v bal))
        (ops.foldl applyOp (initialState v bal)).verifier now aid status
        = .error .AttemptExpired) ∧
    applyOp (ops.foldl applyOp (initialState v bal))
        (.complete (ops.foldl applyOp (initialState v bal)).verifier now
          aid status)
      = ops.foldl applyOp (initialState v bal) := by
  have hdef : (ops.foldl applyOp (initialState v bal)).attempts aid
      = defaultAttempt :=
    foldl_unallocatedDefault ops (initialState v bal)
      (initialState_unallocatedDefault v bal) aid hge
  have herr : attemptCompleted (ops.foldl applyOp (initialState v bal))
      (ops.foldl applyOp (initialState v bal)).verifier now aid status
      = .error .PotNotActive ∨
      attemptCompleted (ops.foldl applyOp (initialState v bal))
        (ops.foldl applyOp (initialState v bal)).verifier now aid status
        = .error .ExpiredPot ∨
      attemptCompleted (ops.foldl applyOp (initialState v bal))
        (ops.foldl applyOp (initialState v bal)).verifier now aid status
        = .error .AttemptExpired := by
    by_cases h1 : ((ops.foldl applyOp (initialState v bal)).pots
        ((ops.foldl applyOp (initialState v bal)).attempts aid).potId).isActive
        = false
    · left
      simp only [attemptCompleted]
      rw [if_neg (fun hn => hn rfl), if_pos h1]
    · by_cases h2 : ((ops.foldl applyOp (initialState v bal)).pots
          ((ops.foldl applyOp
            (initialState v bal)).attempts aid).potId).expiresAt ≤ now
      · right
        left
        simp only [attemptCompleted]
        rw [if_neg (fun hn => hn rfl), if_neg h1, if_pos h2]
      · right
        right
        simp only [attemptCompleted]
        rw [if_neg (fun hn => hn rfl), if_neg h1, if_neg h2,
            if_pos (by rw [hdef]; exact Nat.zero_le now)]
  refine ⟨herr, ?_⟩
  rcases herr with h | h | h <;> simp [applyOp, h]

/-- Witness for C10: after a single pot creation and no attempts, the
verifier's resolution of the unallocated attempt id `0` at time `5`
fails and leaves the state unchanged. -/
theorem C10_unallocated_attempt_witness :
    (attemptCompleted ([Op.create 2 0 (10 ^ 12) 1000 (10 ^ 11) 99].foldl
          applyOp (initialState 7 balW))
        ([Op.create 2 0 (10 ^ 12) 1000 (10 ^ 11) 99].foldl applyOp
          (initialState 7 balW)).verifier 5 0 true
        = .error .PotNotActive ∨
     attemptCompleted ([Op.create 2 0 (10 ^ 12) 1000 (10 ^ 11) 99].foldl
          applyOp (initialState 7 balW))
        ([Op.create 2 0 (10 ^ 12) 1000 (10 ^ 11) 99].foldl applyOp
          (initialState 7 balW)).verifier 5 0 true
        = .error .ExpiredPot ∨
     attemptCompleted ([Op.create 2 0 (10 ^ 12) 1000 (10 ^ 11) 99].foldl
          applyOp (initialState 7 balW))
        ([Op.create 2 0 (10 ^ 12) 1000 (10 ^ 11) 99].foldl applyOp
          (initialState 7 balW)).verifier 5 0 true
        = .error .AttemptExpired) ∧
    applyOp ([Op.create 2 0 (10 ^ 12) 1000 (10 ^ 11) 99].foldl applyOp
        (initialState 7 balW))
        (.complete ([Op.create 2 0 (10 ^ 12) 1000 (10 ^ 11) 99].foldl
          applyOp (initialState 7 balW)).verifier 5 0 true)
      = [Op.create 2 0 (10 ^ 12) 1000 (10 ^ 11) 99].foldl applyOp
          (initialState 7 balW) :=
  C10_unallocated_attempt 7 balW [Op.create 2 0 (10 ^ 12) 1000 (10 ^ 11) 99]
    5 0 true (by decide)

end MoneyPot
